import Mathlib

/-!
Shallow embedding of the Django-Learning repository.

Source files embedded:
  - `djangolearning/djangolearning/views.py`: handlers `home`, `about`,
    `contact`.
  - `djangolearning/subapp/urls.py`: a route table with two entries,
    referencing `views.subapp` and `views.login` on its views module.

External framework collaborators (HttpResponse construction, template
rendering, URL resolution and reverse routing) are not part of the
repository; they are modelled from the specification, each with a doc
comment saying so.
-/

namespace DjangoLearning

/-- An HTTP request as seen by a handler: only the path and the method are
relevant here (headers are unused by this code). -/
structure HttpRequest where
  path : String
  method : String
  deriving DecidableEq, Repr

/-- A response: a status code and a body. -/
structure HttpResponse where
  status : Nat
  body : String
  deriving DecidableEq, Repr

/-- Modelled from the spec: the framework HttpResponse constructor called
with a body only; the status code is the default success status 200. -/
def mkHttpResponse (body : String) : HttpResponse :=
  { status := 200, body := body }

/-- The error raised by the template engine when a template name cannot be
resolved. -/
inductive TemplateError where
  | templateNotFound : String → TemplateError
  deriving DecidableEq, Repr

/-- A template store: maps a template name to its rendered content when the
template resolves, and to nothing when it is absent. Stands for the
template directories together with the engine. -/
abbrev TemplateStore := String → Option String

/-- Modelled from the spec: the external template-rendering collaborator
(the render shortcut). It resolves the named template; on success it
returns a success response holding the rendered content, on failure it
raises a TemplateNotFound error, which the caller may propagate. Context
data is a list of key-value pairs. -/
def render (store : TemplateStore) (req : HttpRequest)
    (templateName : String) (context : List (String × String)) :
    Except TemplateError HttpResponse :=
  match store templateName with
  | some content => Except.ok (mkHttpResponse content)
  | none => Except.error (TemplateError.templateNotFound templateName)

/-- views.py lines 4-6: home returns the result of a single render call for
the template "website/index.html", with no context data and no local error
handling. -/
def home (store : TemplateStore) (req : HttpRequest) :
    Except TemplateError HttpResponse :=
  render store req "website/index.html" []

/-- views.py lines 8-9: about returns a fixed text body. -/
def about (req : HttpRequest) : HttpResponse :=
  mkHttpResponse "Hello from django views, and about page"

/-- views.py lines 11-12: contact returns a fixed text body. -/
def contact (req : HttpRequest) : HttpResponse :=
  mkHttpResponse "Hello from django views, and contact page"

/-- A record of one call made to the template renderer: which template was
asked for and with which context data. -/
structure RenderCall where
  templateName : String
  context : List (String × String)
  deriving DecidableEq, Repr

/-- The renderer, instrumented to append a record of the call it receives
to a trace of render calls. -/
def renderTraced (store : TemplateStore) (req : HttpRequest)
    (templateName : String) (context : List (String × String))
    (trace : List RenderCall) :
    List RenderCall × Except TemplateError HttpResponse :=
  (trace ++ [{ templateName := templateName, context := context }],
   render store req templateName context)

/-- home against the instrumented renderer: the same single statement as
views.py line 6, so the trace records exactly the calls home makes. -/
def homeTraced (store : TemplateStore) (req : HttpRequest)
    (trace : List RenderCall) :
    List RenderCall × Except TemplateError HttpResponse :=
  renderTraced store req "website/index.html" [] trace

/-- A route table entry built by the path function: a pattern, the handler
(recorded by the attribute name under which urls.py references it on its
views module), and a route name. -/
structure Route where
  pattern : String
  handler : String
  name : String
  deriving DecidableEq, Repr

/-- subapp/urls.py lines 6-9: the subapp route table. -/
def urlpatterns : List Route :=
  [ { pattern := "", handler := "subapp", name := "subapphomepage" },
    { pattern := "login", handler := "login", name := "login" } ]

/-- A plain path pattern with no converters matches an incoming path
exactly. -/
def patternMatches (pattern path : String) : Bool :=
  pattern == path

/-- Modelled from the spec: the framework route lookup over a route
table - the first route (in table order) whose pattern matches the
incoming path, and none when no pattern matches, in which case the
framework produces a not-found response. -/
def resolve (table : List Route) (path : String) : Option Route :=
  table.find? (fun r => patternMatches r.pattern path)

/-- Modelled from the spec: the framework reverse-routing facility - the
path of the route registered under the given route name. -/
def reverse (table : List Route) (routeName : String) : Option String :=
  (table.find? (fun r => r.name == routeName)).map Route.pattern

/-- The view functions defined in views.py, in definition order. -/
def definedViewNames : List String := ["home", "about", "contact"]

/-- Classification of each defined view by what its body does: about and
contact build their response directly from a string literal (a fixed text
body); home instead delegates to the template renderer. The semantic
content of this table is restated against the handler definitions in the
amended handler-set theorem below. -/
def isFixedText : String → Bool
  | "about" => true
  | "contact" => true
  | _ => false

/-- The external world a handler could observe or mutate: the template
store together with arbitrary other external state. The handlers in
views.py read at most the template store and mutate nothing. -/
structure World where
  templates : TemplateStore
  extState : List String

/-- about as a state transformer on the world: views.py lines 8-9 perform
no effect, so the world passes through unchanged. -/
def aboutSt (w : World) (req : HttpRequest) : World × HttpResponse :=
  (w, about req)

/-- contact as a state transformer on the world: views.py lines 11-12
perform no effect, so the world passes through unchanged. -/
def contactSt (w : World) (req : HttpRequest) : World × HttpResponse :=
  (w, contact req)

/-- home as a state transformer on the world: views.py lines 4-6 read the
template store and mutate nothing. -/
def homeSt (w : World) (req : HttpRequest) :
    World × Except TemplateError HttpResponse :=
  (w, home w.templates req)

/-- A handler value: either a plain handler or one that consults the
template store. -/
inductive Handler where
  | plain : (HttpRequest → HttpResponse) → Handler
  | rendering : (TemplateStore → HttpRequest → Except TemplateError HttpResponse) → Handler

/-- The function definitions present in the provided source files, by name:
views.py defines home, about and contact, and no source file defines a
function named subapp or login. -/
def sourceFunctions : String → Option Handler
  | "home" => some (Handler.rendering home)
  | "about" => some (Handler.plain about)
  | "contact" => some (Handler.plain contact)
  | _ => none

/-- Dispatch of a path through the subapp route table against the provided
source: resolve the path to a route, then look up the referenced handler
name among the defined functions. -/
def dispatchSubapp (path : String) : Option Handler :=
  (resolve urlpatterns path).bind (fun r => sourceFunctions r.handler)

/-- Claim C1: for every request, the about handler returns a response whose
body is exactly "Hello from django views, and about page" and whose status
code is the default success status 200. -/
theorem about_response (req : HttpRequest) :
    (about req).body = "Hello from django views, and about page" ∧
    (about req).status = 200 :=
  ⟨rfl, rfl⟩

/-- Claim C2: for every request, the contact handler returns a response
whose body is exactly "Hello from django views, and contact page" and whose
status code is the default success status 200. -/
theorem contact_response (req : HttpRequest) :
    (contact req).body = "Hello from django views, and contact page" ∧
    (contact req).status = 200 :=
  ⟨rfl, rfl⟩

/-- Claim C3: for every request, the home handler issues exactly one render
call, with template name "website/index.html" and no additional context
data, and its response is the result of that render call. -/
theorem home_render_call (store : TemplateStore) (req : HttpRequest) :
    (homeTraced store req []).1 =
      [{ templateName := "website/index.html", context := [] }] ∧
    (homeTraced store req []).2 = render store req "website/index.html" [] :=
  ⟨rfl, rfl⟩

/-- Claim C4: the subapp route table contains exactly two entries - the
empty path mapped to the subapp (home-equivalent) handler under the route
name "subapphomepage", and the path "login" mapped to the login handler
under the route name "login". -/
theorem subapp_urlpatterns :
    urlpatterns.length = 2 ∧
    urlpatterns =
      [ { pattern := "", handler := "subapp", name := "subapphomepage" },
        { pattern := "login", handler := "login", name := "login" } ] :=
  ⟨rfl, rfl⟩

/-- Counterexample to claim C5 as stated: the handler set defined in the
provided source has three functions, not four, and exactly two of them,
not three, return a fixed text body. -/
theorem views_handler_count_cex :
    ¬ (definedViewNames.length = 4 ∧
       (definedViewNames.filter isFixedText).length = 3) := by
  decide

/-- Claim C5 (amended): the handler set defined in the views module
consists of three functions; exactly two of them (about and contact) return
a fixed text body and exactly one (home) delegates to the external
template-rendering collaborator, its response varying with the template
store. -/
theorem views_handler_set_amended :
    definedViewNames.length = 3 ∧
    (definedViewNames.filter isFixedText).length = 2 ∧
    (definedViewNames.filter (fun n => ! isFixedText n)).length = 1 ∧
    (∀ req, about req = mkHttpResponse "Hello from django views, and about page") ∧
    (∀ req, contact req = mkHttpResponse "Hello from django views, and contact page") ∧
    (∀ store req, home store req = render store req "website/index.html" []) ∧
    (∃ s1 s2 req, home s1 req ≠ home s2 req) :=
  ⟨rfl, rfl, rfl, fun _ => rfl, fun _ => rfl, fun _ _ => rfl,
   ⟨fun _ => none, fun _ => some "rendered", { path := "/", method := "GET" },
    fun h => Except.noConfusion h⟩⟩

/-- Claim C6: for every incoming path, route lookup in the subapp route
table returns the first entry (in table order) whose pattern matches the
path - the empty pattern first, then the "login" pattern - and returns no
route when neither pattern matches, so the framework produces a not-found
response. -/
theorem resolve_first_match (path : String) :
    (patternMatches "" path = true →
      resolve urlpatterns path =
        some { pattern := "", handler := "subapp", name := "subapphomepage" }) ∧
    (patternMatches "" path = false → patternMatches "login" path = true →
      resolve urlpatterns path =
        some { pattern := "login", handler := "login", name := "login" }) ∧
    (patternMatches "" path = false → patternMatches "login" path = false →
      resolve urlpatterns path = none) := by
  refine ⟨fun h1 => ?_, fun h1 h2 => ?_, fun h1 h2 => ?_⟩
  · simp [resolve, urlpatterns, List.find?, h1]
  · simp [resolve, urlpatterns, List.find?, h1, h2]
  · simp [resolve, urlpatterns, List.find?, h1, h2]

/-- Witness for the route-lookup theorem at the concrete paths "", "login"
and "signup". -/
theorem resolve_first_match_witness :
    resolve urlpatterns "" =
      some { pattern := "", handler := "subapp", name := "subapphomepage" } ∧
    resolve urlpatterns "login" =
      some { pattern := "login", handler := "login", name := "login" } ∧
    resolve urlpatterns "signup" = none :=
  ⟨(resolve_first_match "").1 (by decide),
   (resolve_first_match "login").2.1 (by decide) (by decide),
   (resolve_first_match "signup").2.2 (by decide) (by decide)⟩

/-- Claim C7: for every request, if resolution of the template
"website/index.html" fails, the home handler propagates a TemplateNotFound
error without catching it locally, and it raises no error when the template
resolves; it has no error-handling branch of its own. -/
theorem home_template_errors (store : TemplateStore) (req : HttpRequest) :
    (store "website/index.html" = none →
      home store req =
        Except.error (TemplateError.templateNotFound "website/index.html")) ∧
    (∀ content, store "website/index.html" = some content →
      home store req = Except.ok (mkHttpResponse content)) := by
  constructor
  · intro h
    simp [home, render, h]
  · intro c h
    simp [home, render, h]

/-- Witness for the home error-propagation theorem: a store with no
templates makes home fail with TemplateNotFound, and a store resolving
"website/index.html" makes home succeed with the rendered content. -/
theorem home_template_errors_witness :
    home (fun _ => none) { path := "/", method := "GET" } =
      Except.error (TemplateError.templateNotFound "website/index.html") ∧
    home (fun _ => some "rendered") { path := "/", method := "GET" } =
      Except.ok (mkHttpResponse "rendered") :=
  ⟨(home_template_errors (fun _ => none)
      { path := "/", method := "GET" }).1 rfl,
   (home_template_errors (fun _ => some "rendered")
      { path := "/", method := "GET" }).2 "rendered" rfl⟩

/-- Claim C8: reverse routing round-trips with the subapp route table - for
each entry of the table, looking up its route name yields its path. -/
theorem reverse_round_trip (r : Route) (h : r ∈ urlpatterns) :
    reverse urlpatterns r.name = some r.pattern := by
  fin_cases h <;> rfl

/-- Witness for the reverse-routing theorem at both entries of the table:
"subapphomepage" yields the empty path and "login" yields "login". -/
theorem reverse_round_trip_witness :
    reverse urlpatterns "subapphomepage" = some "" ∧
    reverse urlpatterns "login" = some "login" :=
  ⟨reverse_round_trip
     { pattern := "", handler := "subapp", name := "subapphomepage" }
     (by decide),
   reverse_round_trip
     { pattern := "login", handler := "login", name := "login" }
     (by decide)⟩

/-- Claim C9: the handlers defined in the views module are deterministic
and side-effect free - none mutates the external world, and two successive
invocations on the same request return identical responses. -/
theorem handlers_pure (w : World) (req : HttpRequest) :
    (aboutSt w req).1 = w ∧
    (contactSt w req).1 = w ∧
    (homeSt w req).1 = w ∧
    (aboutSt ((aboutSt w req).1) req).2 = (aboutSt w req).2 ∧
    (contactSt ((contactSt w req).1) req).2 = (contactSt w req).2 ∧
    (homeSt ((homeSt w req).1) req).2 = (homeSt w req).2 :=
  ⟨rfl, rfl, rfl, rfl, rfl, rfl⟩

/-- Claim C10: neither handler referenced by the subapp route table is
defined in the provided source - the referenced names subapp and login
resolve to no defined function, so dispatch through either subapp route
produces no handler and hence no response. -/
theorem subapp_handlers_undefined :
    sourceFunctions "subapp" = none ∧
    sourceFunctions "login" = none ∧
    "subapp" ∉ definedViewNames ∧
    "login" ∉ definedViewNames ∧
    (urlpatterns.all fun r => (sourceFunctions r.handler).isNone) = true ∧
    dispatchSubapp "" = none ∧
    dispatchSubapp "login" = none :=
  ⟨rfl, rfl, by decide, by decide, rfl, rfl, rfl⟩

end DjangoLearning
